import Mathlib

/-!
Verification of the agentic-tutor workflow state machine.

This file shallowly embeds the control/state engine of the repository:
the `AgentState` pydantic model (`src/agent/core/state.py`), the step
(node) functions (`src/agent/nodes/*.py`), the routing functions
(`src/agent/routing/edges.py`) and the HTTP resume payload builder
(`src/api_server.py`).

Modelling conventions:
- Language-model and web-search collaborators are opaque: a node that
  calls them takes the collaborator's reply as an explicit argument.
- A LangGraph node returns a partial state update that is merged into
  the state by replacing the returned fields (the `AgentState` model
  declares no reducer channels, so every returned field overwrites).
  Each embedded node function directly returns the merged state.
- Resume values delivered by `interrupt` are arbitrary Python values;
  they are embedded as `ResumeValue`: either a non-dict value, or a
  string-keyed dict whose values are strings or lists of strings
  (the shapes producible by the repository's callers).
- Chat messages are display-only and no claim depends on their text,
  so `Msg` records only the role of each message, not its content.
- A node that can raise a Python exception is embedded as returning
  `Option AgentState`, `none` marking the raise.
-/

namespace AgenticTutor

/-- Role-tagged chat message (content elided; display only). -/
inductive Msg where
  | human : Msg
  | ai : Msg
  deriving Repr, DecidableEq

/-- The `workflow_stage` literal of `AgentState` (state.py line 54). -/
inductive Stage where
  | start
  | prerequisites
  | human_selection
  | roadmap
  | learning
  | session_summary
  | complete
  deriving Repr, DecidableEq

/-- Graph node identifiers as wired in `workflow.py` / returned by the
routing functions in `edges.py`. -/
inductive Node where
  | prerequisites_agent
  | human_selection
  | roadmap_agent
  | research_agent
  | critique_agent
  | generation_agent_main
  | topic_review
  | progress_tracker
  | session_summary
  | session_completion
  deriving Repr, DecidableEq

/-- A Python value occurring in a resume payload dict: a string or a
list of strings (the value shapes the repository's callers produce). -/
inductive PyValue where
  | str : String → PyValue
  | strList : List String → PyValue
  deriving Repr, DecidableEq

/-- A value delivered to an `interrupt` call on resume: either not a
dict at all, or a dict embedded as an association list. -/
inductive ResumeValue where
  | nonDict : ResumeValue
  | dict : List (String × PyValue) → ResumeValue
  deriving Repr, DecidableEq

/-- Embedding of `d.get(k)` on a Python dict, as association-list
lookup. -/
def dictGet (k : String) : List (String × PyValue) → Option PyValue
  | [] => none
  | (k', v) :: rest => if k' = k then some v else dictGet k rest

/-- Python truthiness of the embedded values (`bool("") = False`,
`bool([]) = False`). -/
def pyTruthy : PyValue → Bool
  | .str s => !s.isEmpty
  | .strList xs => !xs.isEmpty

/-- The `AgentState` pydantic model (`src/agent/core/state.py`).
`questions_asked` entries are (question, answer) pairs, embedding the
`{"question": q, "answer": a}` dicts the code appends.
`session_completion_data` is omitted: no claim touches it. -/
structure AgentState where
  initial_topic : String
  prerequisites : List String
  known_prerequisites : List String
  unknown_prerequisites : List String
  learning_roadmap : List String
  completed_topics : List String
  current_topic_index : Nat
  messages : List Msg
  current_topic : String
  current_research : String
  current_lesson : String
  topic_complete : Bool
  awaiting_user_input : Bool
  user_selection : List String
  last_qa_question : String
  last_qa_answer : String
  questions_asked : List (String × String)
  research_retry_count : Nat
  workflow_stage : Stage
  deriving Repr, DecidableEq

/-- Router `route_after_topic_review` (edges.py lines 33-40): empty
`current_lesson` (Python falsy string) routes to regeneration, a
completed topic to the progress tracker, otherwise self-loop. -/
def route_after_topic_review (state : AgentState) : Node :=
  if state.current_lesson = "" then
    .research_agent
  else if state.topic_complete then
    .progress_tracker
  else
    .topic_review

/-- Helper of `human_selection_node` (selection.py lines 29-68), from the point
where the `interrupt` call has returned `user_response`. The branch on
`isinstance(user_response, dict) and "known_prerequisites" in
user_response` filters the provided entries against
`state.prerequisites` and complements; any other response defaults to
"user knows none". A string value for the key is iterated by Python as
its characters, each a one-character string. -/
def knownFromValue (prereqs : List String) : PyValue → List String
  | .strList ks => ks.filter (fun p => p ∈ prereqs)
  | .str s => (s.toList.map (fun c => String.mk [c])).filter (fun p => p ∈ prereqs)

/-- The (known, unknown) pair computed by `human_selection_node`
(selection.py lines 29-41) from the prerequisites and the resume
value. -/
def selectionLists (prereqs : List String) : ResumeValue → List String × List String
  | .dict d =>
    match dictGet "known_prerequisites" d with
    | some v =>
      let known := knownFromValue prereqs v
      (known, prereqs.filter (fun p => ¬ p ∈ known))
    | none => ([], prereqs)
  | .nonDict => ([], prereqs)

def human_selection_node (state : AgentState) (user_response : ResumeValue) :
    AgentState :=
  let pair := selectionLists state.prerequisites user_response
  { state with
    known_prerequisites := pair.1
    unknown_prerequisites := pair.2
    user_selection := pair.2
    messages := [.ai]
    workflow_stage := .roadmap
    awaiting_user_input := false }

/-- Python's `content.split('\n')` on the character list: splits at
each newline, keeping empty segments (`"".split('\n') == ['']`). -/
def splitLines : List Char → List (List Char)
  | [] => [[]]
  | c :: rest =>
    if c = '\n' then [] :: splitLines rest
    else
      match splitLines rest with
      | [] => [[c]]
      | seg :: segs => (c :: seg) :: segs

/-- Python's `line.strip()` on the character list: drops leading and
trailing whitespace. -/
def stripChars (l : List Char) : List Char :=
  ((l.dropWhile Char.isWhitespace).reverse.dropWhile Char.isWhitespace).reverse

/-- The roadmap parse (roadmap.py line 39):
`[line.strip() for line in response.content.split('\n') if line.strip()]`. -/
def parseRoadmap (content : String) : List String :=
  ((splitLines content.toList).map (fun l => String.mk (stripChars l))).filter
    (fun line => line ≠ "")

/-- Node `roadmap_agent_node` (roadmap.py lines 11-53), with the model reply
passed in. After parsing the reply into `roadmap`, the code builds
`roadmap_message` whose f-string indexes `roadmap[0]` unguarded
(line 44); on an empty parse this raises IndexError before the guarded
`roadmap[0] if roadmap else ""` in the return dict is reached, so the
empty case is embedded as `none`. -/
def roadmap_agent_node (state : AgentState) (llmReply : String) :
    Option AgentState :=
  let roadmap := parseRoadmap llmReply
  match roadmap with
  | [] => none
  | r0 :: _ =>
    some { state with
      learning_roadmap := roadmap
      current_topic_index := 0
      current_topic := r0
      messages := [.ai]
      workflow_stage := .learning }

/-- Node `progress_tracker_node` (progress.py lines 9-51): marks the current
topic completed, advances the index; when the new index has exhausted
the roadmap it enters the summary stage, otherwise it loads the next
topic (`roadmap[next_index]`, in bounds in that branch). -/
def progress_tracker_node (state : AgentState) : AgentState :=
  let completed_topics := state.completed_topics ++ [state.current_topic]
  let next_index := state.current_topic_index + 1
  if h : state.learning_roadmap.length ≤ next_index then
    { state with
      completed_topics := completed_topics
      current_topic_index := next_index
      workflow_stage := .session_summary
      messages := [.ai]
      topic_complete := false }
  else
    { state with
      completed_topics := completed_topics
      current_topic_index := next_index
      current_topic := state.learning_roadmap.get ⟨next_index, lt_of_not_le h⟩
      topic_complete := false
      messages := [.ai] }

/-- One search result `{title, url, content}` as returned by the search
collaborator (learning.py lines 29-32 read these keys). -/
structure SearchResult where
  title : String
  url : String
  content : String
  deriving Repr, DecidableEq

/-- The research buffer compiled from the search results
(learning.py lines 28-32): header plus, per result, title, url and the
snippet truncated to 300 characters. -/
def compileResearch (topic : String) (results : List SearchResult) : String :=
  (results.enumFrom 1).foldl
    (fun acc r =>
      acc ++ "Source " ++ toString r.1 ++ ": " ++ r.2.title ++ "\n"
        ++ "URL: " ++ r.2.url ++ "\n"
        ++ "Content: " ++ r.2.content.take 300 ++ "...\n\n")
    ("Research for: " ++ topic ++ "\n\n")

/-- Node `research_agent_node` (learning.py lines 13-42), with the search
collaborator's results passed in. An empty `current_topic` (Python
falsy) short-circuits to the single-field update
`{"current_research": "No topic to research"}` before any search. -/
def research_agent_node (state : AgentState) (results : List SearchResult) :
    AgentState :=
  if state.current_topic = "" then
    { state with current_research := "No topic to research" }
  else
    { state with
      current_research := compileResearch state.current_topic results
      research_retry_count := 0
      messages := [.ai] }

/-- Node `critique_agent_node` (learning.py lines 45-78), with the model
reply passed in: appends the review feedback annotation to the research
buffer (always accepts after one pass). -/
def critique_agent_node (state : AgentState) (llmReply : String) : AgentState :=
  { state with
    current_research :=
      state.current_research ++ "\n\n[REVIEW FEEDBACK: " ++ llmReply ++ "]"
    messages := [.ai] }

/-- Node `generation_agent_node_main` (learning.py lines 81-117), with the
model reply passed in: wraps the reply into the lesson template and
flags the state as waiting for review. -/
def generation_agent_node_main (state : AgentState) (llmReply : String) :
    AgentState :=
  { state with
    current_lesson :=
      "# 📖 Lesson: " ++ state.current_topic ++ "\n\n" ++ llmReply
        ++ "\n\n✅ Topic completed! Ready for your review."
    messages := [.ai]
    awaiting_user_input := true
    topic_complete := false }

/-- Node `session_summary_node` (completion.py lines 12-136), with the model
reply passed in; `session_completion_data` is elided from the state. -/
def session_summary_node (state : AgentState) (llmReply : String) : AgentState :=
  { state with
    messages := [.ai]
    workflow_stage := .complete
    current_lesson :=
      "# 🎓 Learning Session Complete!\n\n" ++ llmReply
        ++ "\n\n---\n\n*Thank you for using the Agentic Tutor! Your learning journey has been saved and you can start a new topic anytime.*"
    topic_complete := true
    awaiting_user_input := true }

/-- Node `session_completion_node` (completion.py lines 139-160), from the
point where its acknowledgment `interrupt` has returned. -/
def session_completion_node (state : AgentState) : AgentState :=
  { state with
    messages := [.ai]
    workflow_stage := .complete
    awaiting_user_input := false
    topic_complete := true }

/-- The `user_feedback.get("action", "continue")` read in
`topic_review_node` (learning.py line 145). -/
def feedbackAction (d : List (String × PyValue)) : PyValue :=
  (dictGet "action" d).getD (.str "continue")

/-- The `user_feedback.get("question", "")` read in `topic_review_node`
(learning.py line 146). The repository's callers only ever place a
string under this key, so a string is extracted (absent key gives ""). -/
def feedbackQuestion (d : List (String × PyValue)) : String :=
  match dictGet "question" d with
  | some (.str q) => q
  | _ => ""

/-- Node `topic_review_node` (learning.py lines 120-218), from the point
where the `interrupt` call has returned `user_feedback`; the
collaborator's answer to a question is passed in as `llmAnswer`.
Branches: dict with action "ask_question" and truthy question appends
to `questions_asked` and keeps waiting; dict with action "regenerate"
clears the lesson; any other dict, and any non-dict, takes the
continue/default branch. -/
def topic_review_node (state : AgentState) (user_feedback : ResumeValue)
    (llmAnswer : String) : AgentState :=
  match user_feedback with
  | .dict d =>
    let feedback_type := feedbackAction d
    let user_question := feedbackQuestion d
    if feedback_type = .str "ask_question" ∧ user_question ≠ "" then
      { state with
        messages := [.ai]
        awaiting_user_input := true
        topic_complete := false
        last_qa_question := user_question
        last_qa_answer := llmAnswer
        questions_asked := state.questions_asked ++ [(user_question, llmAnswer)] }
    else if feedback_type = .str "regenerate" then
      { state with
        messages := [.ai]
        awaiting_user_input := false
        topic_complete := false
        current_lesson := "" }
    else
      { state with
        messages := [.ai]
        awaiting_user_input := false
        topic_complete := true
        last_qa_question := ""
        last_qa_answer := ""
        questions_asked := state.questions_asked }
  | .nonDict =>
    { state with
      messages := [.ai]
      awaiting_user_input := false
      topic_complete := true
      last_qa_question := ""
      last_qa_answer := ""
      questions_asked := state.questions_asked }

/-- Request model `ResumeSessionRequest` (api_server.py lines 93-97). -/
structure ResumeSessionRequest where
  action : String
  question : Option String
  selected_prerequisites : Option (List String)
  deriving Repr, DecidableEq

/-- The entries of the resume payload built by the `/tutor/resume`
endpoint (api_server.py lines 259-268): always `{"action": ...}`, plus
`question` when truthy, plus `selected_prerequisites` when truthy. -/
def buildEntries (req : ResumeSessionRequest) : List (String × PyValue) :=
  [("action", PyValue.str req.action)]
    ++ (match req.question with
        | some q => if q ≠ "" then [("question", PyValue.str q)] else []
        | none => [])
    ++ (match req.selected_prerequisites with
        | some ps => if ps ≠ [] then [("selected_prerequisites", PyValue.strList ps)] else []
        | none => [])

/-- The resume payload handed to `runner.resume_with_response`
(api_server.py line 271) as the pending interrupt's value. -/
def buildUserResponse (req : ResumeSessionRequest) : ResumeValue :=
  .dict (buildEntries req)

/-- The key set of a resume payload (dict keys; a non-dict has none). -/
def payloadKeys : ResumeValue → List String
  | .nonDict => []
  | .dict d => d.map Prod.fst

/-- Whether a resume value is a dict taking `topic_review_node`'s
regenerate branch (learning.py line 177). -/
def isRegenerateFeedback : ResumeValue → Bool
  | .dict d => decide (feedbackAction d = .str "regenerate")
  | .nonDict => false

/-- Whether a resume value is a dict taking `topic_review_node`'s
ask-question branch (learning.py line 148): action "ask_question" with
a truthy question. -/
def isAskQuestionFeedback : ResumeValue → Bool
  | .dict d => decide (feedbackAction d = .str "ask_question" ∧ feedbackQuestion d ≠ "")
  | .nonDict => false

/-- A concrete mid-learning state (lesson under review), used to
instantiate universally quantified theorems. -/
def sampleState : AgentState :=
  { initial_topic := "Gradient Descent"
    prerequisites := ["Calculus", "Linear Algebra", "Partial Derivatives"]
    known_prerequisites := ["Partial Derivatives"]
    unknown_prerequisites := ["Calculus", "Linear Algebra"]
    learning_roadmap := ["Calculus", "Linear Algebra", "Gradient Descent"]
    completed_topics := []
    current_topic_index := 0
    messages := [.human]
    current_topic := "Calculus"
    current_research := "Research for: Calculus"
    current_lesson := "# 📖 Lesson: Calculus"
    topic_complete := false
    awaiting_user_input := true
    user_selection := ["Calculus", "Linear Algebra"]
    last_qa_question := ""
    last_qa_answer := ""
    questions_asked := []
    research_retry_count := 0
    workflow_stage := .learning }

/-- A concrete state reviewing the last topic of a one-topic roadmap,
about to enter the progress step. -/
def lastTopicState : AgentState :=
  { sampleState with
    learning_roadmap := ["Gradient Descent"]
    current_topic := "Gradient Descent"
    current_topic_index := 0
    topic_complete := true }

/-- A concrete state as it enters `roadmap_agent_node` (after human
selection). -/
def preRoadmapState : AgentState :=
  { sampleState with
    current_topic := ""
    current_lesson := ""
    awaiting_user_input := false
    workflow_stage := .roadmap }

/-- The state produced by the roadmap step on `preRoadmapState` when
the model reply is the faithful ordering ending with the topic. -/
def postRoadmapState : AgentState :=
  { preRoadmapState with
    learning_roadmap := ["Calculus", "Linear Algebra", "Gradient Descent"]
    current_topic_index := 0
    current_topic := "Calculus"
    messages := [.ai]
    workflow_stage := .learning }

/-- A degenerate session: empty topic and no unknown prerequisites,
entering the roadmap step. -/
def emptySessionState : AgentState :=
  { preRoadmapState with
    initial_topic := ""
    prerequisites := []
    known_prerequisites := []
    unknown_prerequisites := []
    user_selection := []
    learning_roadmap := [] }

/-- A concrete state whose current topic is the empty string. -/
def emptyTopicState : AgentState :=
  { sampleState with current_topic := "" }

/-- A concrete resume request selecting a prerequisite, as the web UI
would send for the prerequisite_selection suspension. -/
def selectionRequest : ResumeSessionRequest :=
  { action := "select_prerequisites"
    question := none
    selected_prerequisites := some ["Calculus"] }

/-- Whether a resume value is a dict containing the key
`known_prerequisites` (the test on selection.py line 32). -/
def hasKnownKey : ResumeValue → Bool
  | .dict d => (dictGet "known_prerequisites" d).isSome
  | .nonDict => false

/-! ## Basic projection lemmas -/

theorem human_selection_node_known (s : AgentState) (r : ResumeValue) :
    (human_selection_node s r).known_prerequisites = (selectionLists s.prerequisites r).1 :=
  rfl

theorem human_selection_node_unknown (s : AgentState) (r : ResumeValue) :
    (human_selection_node s r).unknown_prerequisites = (selectionLists s.prerequisites r).2 :=
  rfl

theorem human_selection_node_prereqs (s : AgentState) (r : ResumeValue) :
    (human_selection_node s r).prerequisites = s.prerequisites :=
  rfl

theorem knownFromValue_subset (prereqs : List String) (v : PyValue) :
    ∀ x ∈ knownFromValue prereqs v, x ∈ prereqs := by
  intro x hx
  cases v with
  | strList ks =>
    simp only [knownFromValue] at hx
    exact of_decide_eq_true (List.mem_filter.mp hx).2
  | str str =>
    simp only [knownFromValue] at hx
    exact of_decide_eq_true (List.mem_filter.mp hx).2

theorem partition_core (prereqs known : List String)
    (hsub : ∀ x ∈ known, x ∈ prereqs) :
    (∀ x, x ∈ known → ¬ x ∈ prereqs.filter (fun p => ¬ p ∈ known)) ∧
    (∀ x, x ∈ prereqs ↔ (x ∈ known ∨ x ∈ prereqs.filter (fun p => ¬ p ∈ known))) := by
  constructor
  · intro x hx hmem
    exact of_decide_eq_true (List.mem_filter.mp hmem).2 hx
  · intro x
    constructor
    · intro hx
      by_cases hk : x ∈ known
      · exact Or.inl hk
      · exact Or.inr (List.mem_filter.mpr ⟨hx, decide_eq_true hk⟩)
    · rintro (hk | hu)
      · exact hsub x hk
      · exact (List.mem_filter.mp hu).1

/-! ## C1 -/

/-- C1: the routing function after topic_review is deterministic in
the state and returns exactly: research when `current_lesson` is empty,
otherwise progress when the topic is done, otherwise topic_review
itself; no other successor is possible. -/
theorem route_after_topic_review_exact (s : AgentState) :
    (route_after_topic_review s = .research_agent ↔ s.current_lesson = "") ∧
    (route_after_topic_review s = .progress_tracker ↔
      (s.current_lesson ≠ "" ∧ s.topic_complete = true)) ∧
    (route_after_topic_review s = .topic_review ↔
      (s.current_lesson ≠ "" ∧ s.topic_complete = false)) ∧
    (route_after_topic_review s = .research_agent ∨
      route_after_topic_review s = .progress_tracker ∨
      route_after_topic_review s = .topic_review) := by
  unfold route_after_topic_review
  by_cases h : s.current_lesson = "" <;> by_cases h2 : s.topic_complete <;>
    simp [h, h2]

/-- C1 witness: at a concrete state the router picks one of the three
successors. -/
theorem route_after_topic_review_exact_spot :
    route_after_topic_review sampleState = .research_agent ∨
    route_after_topic_review sampleState = .progress_tracker ∨
    route_after_topic_review sampleState = .topic_review :=
  (route_after_topic_review_exact sampleState).2.2.2

/-! ## C2 -/

/-- C2: resuming human_selection with a value that is not a dict
containing `known_prerequisites` sets `unknown_prerequisites` to
`state.prerequisites` exactly and `known_prerequisites` to `[]`,
without an error (the embedded node is a total function). -/
theorem human_selection_malformed_default (s : AgentState) (r : ResumeValue)
    (h : hasKnownKey r = false) :
    (human_selection_node s r).unknown_prerequisites = s.prerequisites ∧
    (human_selection_node s r).known_prerequisites = [] := by
  cases r with
  | nonDict =>
    exact ⟨rfl, rfl⟩
  | dict d =>
    cases hd : dictGet "known_prerequisites" d with
    | some v => simp [hasKnownKey, hd] at h
    | none =>
      rw [human_selection_node_unknown, human_selection_node_known]
      simp [selectionLists, hd]

/-- C2 witness: the empty dict takes the defensive-default branch. -/
theorem human_selection_malformed_default_spot :
    (human_selection_node sampleState (.dict [])).unknown_prerequisites =
        sampleState.prerequisites ∧
    (human_selection_node sampleState (.dict [])).known_prerequisites = [] :=
  human_selection_malformed_default sampleState (.dict []) (by decide)

/-! ## C3 -/

/-- C3: for every resume value and prior state, after human_selection
the known and unknown lists are disjoint, their union as sets is
`prerequisites` (which the step leaves unchanged), resume entries not
occurring in `prerequisites` are discarded, and `unknown_prerequisites`
is a sublist of `prerequisites` (discovery order preserved). -/
theorem human_selection_partition (s : AgentState) (r : ResumeValue) :
    ((human_selection_node s r).prerequisites = s.prerequisites) ∧
    (∀ x, x ∈ (human_selection_node s r).known_prerequisites →
        ¬ x ∈ (human_selection_node s r).unknown_prerequisites) ∧
    (∀ x, x ∈ s.prerequisites ↔
        (x ∈ (human_selection_node s r).known_prerequisites ∨
          x ∈ (human_selection_node s r).unknown_prerequisites)) ∧
    (∀ x, x ∈ (human_selection_node s r).known_prerequisites → x ∈ s.prerequisites) ∧
    (human_selection_node s r).unknown_prerequisites.Sublist s.prerequisites := by
  rw [human_selection_node_prereqs, human_selection_node_known,
    human_selection_node_unknown]
  rcases r with _ | d
  · refine ⟨rfl, ?_, ?_, ?_, ?_⟩
    · intro x hx; cases hx
    · intro x; simp [selectionLists]
    · intro x hx; cases hx
    · exact List.Sublist.refl s.prerequisites
  · cases hd : dictGet "known_prerequisites" d with
    | none =>
      refine ⟨rfl, ?_, ?_, ?_, ?_⟩ <;> simp [selectionLists, hd]
    | some v =>
      have hsub := knownFromValue_subset s.prerequisites v
      have hcore := partition_core s.prerequisites (knownFromValue s.prerequisites v) hsub
      refine ⟨rfl, ?_, ?_, ?_, ?_⟩
      · intro x
        simpa [selectionLists, hd] using hcore.1 x
      · intro x
        simpa [selectionLists, hd] using hcore.2 x
      · intro x
        simpa [selectionLists, hd] using hsub x
      · simp only [selectionLists, hd]
        exact List.filter_sublist s.prerequisites

/-- C3 witness: order preservation evaluated at a concrete selection. -/
theorem human_selection_partition_spot :
    (human_selection_node sampleState
        (.dict [("known_prerequisites", .strList ["Calculus"])])).unknown_prerequisites.Sublist
      sampleState.prerequisites :=
  (human_selection_partition sampleState
    (.dict [("known_prerequisites", .strList ["Calculus"])])).2.2.2.2

/-! ## C4 -/

theorem research_roadmap_frame (t : AgentState) (results : List SearchResult) :
    (research_agent_node t results).learning_roadmap = t.learning_roadmap ∧
    (research_agent_node t results).initial_topic = t.initial_topic := by
  refine ⟨?_, ?_⟩ <;> · simp only [research_agent_node]; split_ifs <;> rfl

theorem topic_review_roadmap_frame (t : AgentState) (r : ResumeValue) (a : String) :
    (topic_review_node t r a).learning_roadmap = t.learning_roadmap ∧
    (topic_review_node t r a).initial_topic = t.initial_topic := by
  cases r with
  | nonDict => exact ⟨rfl, rfl⟩
  | dict d =>
    refine ⟨?_, ?_⟩ <;> · simp only [topic_review_node]; split_ifs <;> rfl

theorem progress_tracker_roadmap_frame (t : AgentState) :
    (progress_tracker_node t).learning_roadmap = t.learning_roadmap ∧
    (progress_tracker_node t).initial_topic = t.initial_topic := by
  refine ⟨?_, ?_⟩ <;> · simp only [progress_tracker_node]; split_ifs <;> rfl

/-- C4 counterexample: from a state entering the roadmap step with
topic "Gradient Descent", a model reply whose lines do not end with the
topic produces a non-empty roadmap whose last element differs from the
topic: the code never validates the reply, so `roadmap[-1] == topic` is
not an invariant of the code. -/
theorem roadmap_tail_counterexample :
    (roadmap_agent_node preRoadmapState "Calculus\nLinear Algebra").map
        (fun s => (decide (s.learning_roadmap ≠ []),
          decide (s.learning_roadmap.getLast? = some s.initial_topic))) =
      some (true, false) := by
  rfl

/-- C4 (amended): immediately after the roadmap step the roadmap's last
element equals the topic provided the parsed model reply ends with the
topic (the code does not enforce this); and every later step (research,
critique, generation, topic review, progress, summary, completion)
changes neither `learning_roadmap` nor `initial_topic`, so the equality
is preserved at every later step. -/
theorem roadmap_tail_amended (s s' : AgentState) (reply : String)
    (h : roadmap_agent_node s reply = some s')
    (hl : (parseRoadmap reply).getLast? = some s.initial_topic) :
    (s'.learning_roadmap ≠ [] ∧
      s'.learning_roadmap.getLast? = some s'.initial_topic) ∧
    (∀ t results, (research_agent_node t results).learning_roadmap = t.learning_roadmap ∧
        (research_agent_node t results).initial_topic = t.initial_topic) ∧
    (∀ t reply2, (critique_agent_node t reply2).learning_roadmap = t.learning_roadmap ∧
        (critique_agent_node t reply2).initial_topic = t.initial_topic) ∧
    (∀ t reply2, (generation_agent_node_main t reply2).learning_roadmap = t.learning_roadmap ∧
        (generation_agent_node_main t reply2).initial_topic = t.initial_topic) ∧
    (∀ t r a, (topic_review_node t r a).learning_roadmap = t.learning_roadmap ∧
        (topic_review_node t r a).initial_topic = t.initial_topic) ∧
    (∀ t, (progress_tracker_node t).learning_roadmap = t.learning_roadmap ∧
        (progress_tracker_node t).initial_topic = t.initial_topic) ∧
    (∀ t reply2, (session_summary_node t reply2).learning_roadmap = t.learning_roadmap ∧
        (session_summary_node t reply2).initial_topic = t.initial_topic) ∧
    (∀ t, (session_completion_node t).learning_roadmap = t.learning_roadmap ∧
        (session_completion_node t).initial_topic = t.initial_topic) := by
  refine ⟨?_, research_roadmap_frame, fun t reply2 => ⟨rfl, rfl⟩,
    fun t reply2 => ⟨rfl, rfl⟩, topic_review_roadmap_frame,
    progress_tracker_roadmap_frame, fun t reply2 => ⟨rfl, rfl⟩,
    fun t => ⟨rfl, rfl⟩⟩
  cases hr : parseRoadmap reply with
  | nil => simp [roadmap_agent_node, hr] at h
  | cons r0 rest =>
    simp only [roadmap_agent_node, hr] at h
    rw [Option.some.injEq] at h
    subst h
    rw [hr] at hl
    exact ⟨by simp, hl⟩

/-- C4 witness: a faithful model reply yields a roadmap whose last
element is the topic. -/
theorem roadmap_tail_amended_spot :
    postRoadmapState.learning_roadmap ≠ [] ∧
    postRoadmapState.learning_roadmap.getLast? = some postRoadmapState.initial_topic :=
  (roadmap_tail_amended preRoadmapState postRoadmapState
    "Calculus\nLinear Algebra\nGradient Descent" (by decide) (by decide)).1

/-! ## C5 -/

/-- C5: when the model reply parses to an empty roadmap the code
raises (IndexError on `roadmap[0]` inside the roadmap message f-string,
roadmap.py line 44), embedded as `none` — it does not return the empty
roadmap with an empty current topic as the claim states; on a
non-empty parse it does set cursor 0, current topic `roadmap[0]` and
the learning stage. -/
theorem roadmap_empty_reply_raises :
    roadmap_agent_node emptySessionState "" = none ∧
    roadmap_agent_node emptySessionState "  \n   " = none ∧
    (roadmap_agent_node emptySessionState "Some Topic").map
        (fun s => (s.current_topic_index, s.current_topic, s.workflow_stage,
          s.learning_roadmap)) =
      some (0, "Some Topic", .learning, ["Some Topic"]) := by
  refine ⟨by decide, by decide, by decide⟩

/-! ## C6 -/

/-- C6: any resume value at topic_review that is neither a
regenerate dict nor an ask-question dict with a non-empty question
(non-dicts and unknown actions included) takes the continue branch:
topic done, no longer awaiting input, the single-turn Q&A display
fields cleared to empty strings, and the cumulative `questions_asked`
log unchanged (the embedded node is total, so no error is possible). -/
theorem topic_review_default_continue (s : AgentState) (r : ResumeValue) (a : String)
    (h1 : isRegenerateFeedback r = false) (h2 : isAskQuestionFeedback r = false) :
    (topic_review_node s r a).topic_complete = true ∧
    (topic_review_node s r a).awaiting_user_input = false ∧
    (topic_review_node s r a).last_qa_question = "" ∧
    (topic_review_node s r a).last_qa_answer = "" ∧
    (topic_review_node s r a).questions_asked = s.questions_asked := by
  cases r with
  | nonDict => exact ⟨rfl, rfl, rfl, rfl, rfl⟩
  | dict d =>
    simp only [isRegenerateFeedback, decide_eq_false_iff_not] at h1
    simp only [isAskQuestionFeedback, decide_eq_false_iff_not] at h2
    simp only [topic_review_node]
    rw [if_neg h2, if_neg h1]
    exact ⟨rfl, rfl, rfl, rfl, rfl⟩

/-- C6 witness: an out-of-vocabulary action dict gets continue
semantics. -/
theorem topic_review_default_continue_spot :
    (topic_review_node sampleState (.dict [("action", .str "skip")]) "ans").topic_complete = true ∧
    (topic_review_node sampleState (.dict [("action", .str "skip")]) "ans").awaiting_user_input = false ∧
    (topic_review_node sampleState (.dict [("action", .str "skip")]) "ans").last_qa_question = "" ∧
    (topic_review_node sampleState (.dict [("action", .str "skip")]) "ans").last_qa_answer = "" ∧
    (topic_review_node sampleState (.dict [("action", .str "skip")]) "ans").questions_asked =
      sampleState.questions_asked :=
  topic_review_default_continue sampleState (.dict [("action", .str "skip")]) "ans"
    (by decide) (by decide)

/-! ## C7 -/

/-- C7: the progress step appends the current topic to `completed`
(append-only extension) and increments the cursor by exactly one (so
the cursor strictly increases); when the new cursor has reached the
roadmap length it enters the summary stage, otherwise it loads
`roadmap[new cursor]` as current topic and resets `topic_done`; and
from an in-range cursor the summary branch fires exactly at
cursor == len(roadmap). -/
theorem progress_tracker_spec (s : AgentState) :
    (progress_tracker_node s).completed_topics = s.completed_topics ++ [s.current_topic] ∧
    (progress_tracker_node s).current_topic_index = s.current_topic_index + 1 ∧
    s.current_topic_index < (progress_tracker_node s).current_topic_index ∧
    (if s.learning_roadmap.length ≤ s.current_topic_index + 1 then
        (progress_tracker_node s).workflow_stage = .session_summary
      else
        ((progress_tracker_node s).current_topic =
            s.learning_roadmap.getD (s.current_topic_index + 1) "" ∧
          (progress_tracker_node s).topic_complete = false ∧
          (progress_tracker_node s).workflow_stage = s.workflow_stage)) ∧
    (s.current_topic_index < s.learning_roadmap.length →
      s.learning_roadmap.length ≤ s.current_topic_index + 1 →
      (progress_tracker_node s).current_topic_index = s.learning_roadmap.length) := by
  by_cases h : s.learning_roadmap.length ≤ s.current_topic_index + 1
  · refine ⟨?_, ?_, ?_, ?_, ?_⟩
    · simp only [progress_tracker_node, dif_pos h]
    · simp only [progress_tracker_node, dif_pos h]
    · simp only [progress_tracker_node, dif_pos h]
      omega
    · rw [if_pos h]
      simp only [progress_tracker_node, dif_pos h]
    · intro h1 h2
      simp only [progress_tracker_node, dif_pos h]
      omega
  · refine ⟨?_, ?_, ?_, ?_, ?_⟩
    · simp only [progress_tracker_node, dif_neg h]
    · simp only [progress_tracker_node, dif_neg h]
    · simp only [progress_tracker_node, dif_neg h]
      omega
    · rw [if_neg h]
      refine ⟨?_, ?_, ?_⟩
      · simp only [progress_tracker_node, dif_neg h]
        rw [List.getD_eq_getElem s.learning_roadmap "" (lt_of_not_le h)]
        simp [List.get_eq_getElem]
      · simp only [progress_tracker_node, dif_neg h]
      · simp only [progress_tracker_node, dif_neg h]
    · intro h1 h2
      omega

/-- C7 witness: completing the final topic of a single-topic roadmap
ends with cursor equal to the roadmap length. -/
theorem progress_tracker_spec_spot :
    (progress_tracker_node lastTopicState).current_topic_index =
      lastTopicState.learning_roadmap.length :=
  (progress_tracker_spec lastTopicState).2.2.2.2 (by decide) (by decide)

/-! ## C8 -/

/-- C8: resuming topic_review with an ask_question dict carrying a
non-empty question appends exactly one (question, answer) pair to the
cumulative log, keeps the step awaiting input with the topic not done,
leaves the lesson unchanged, and the router then self-loops to
topic_review. -/
theorem topic_review_ask_question_spec (s : AgentState)
    (d : List (String × PyValue)) (a : String)
    (ha : feedbackAction d = .str "ask_question")
    (hq : feedbackQuestion d ≠ "")
    (hl : s.current_lesson ≠ "") :
    (topic_review_node s (.dict d) a).questions_asked =
      s.questions_asked ++ [(feedbackQuestion d, a)] ∧
    (topic_review_node s (.dict d) a).awaiting_user_input = true ∧
    (topic_review_node s (.dict d) a).topic_complete = false ∧
    (topic_review_node s (.dict d) a).current_lesson = s.current_lesson ∧
    route_after_topic_review (topic_review_node s (.dict d) a) = .topic_review := by
  have hcond : feedbackAction d = .str "ask_question" ∧ feedbackQuestion d ≠ "" := ⟨ha, hq⟩
  simp only [topic_review_node]
  rw [if_pos hcond]
  refine ⟨rfl, rfl, rfl, rfl, ?_⟩
  unfold route_after_topic_review
  rw [if_neg hl]
  rfl

/-- C8 witness: a concrete question appends one Q&A pair and
self-loops. -/
theorem topic_review_ask_question_spot :
    (topic_review_node sampleState
        (.dict [("action", .str "ask_question"), ("question", .str "Why does it converge?")])
        "Because the steps shrink.").questions_asked =
      sampleState.questions_asked ++ [("Why does it converge?", "Because the steps shrink.")] ∧
    (topic_review_node sampleState
        (.dict [("action", .str "ask_question"), ("question", .str "Why does it converge?")])
        "Because the steps shrink.").awaiting_user_input = true ∧
    (topic_review_node sampleState
        (.dict [("action", .str "ask_question"), ("question", .str "Why does it converge?")])
        "Because the steps shrink.").topic_complete = false ∧
    (topic_review_node sampleState
        (.dict [("action", .str "ask_question"), ("question", .str "Why does it converge?")])
        "Because the steps shrink.").current_lesson = sampleState.current_lesson ∧
    route_after_topic_review (topic_review_node sampleState
        (.dict [("action", .str "ask_question"), ("question", .str "Why does it converge?")])
        "Because the steps shrink.") = .topic_review :=
  topic_review_ask_question_spec sampleState
    [("action", .str "ask_question"), ("question", .str "Why does it converge?")]
    "Because the steps shrink." (by decide) (by decide) (by decide)

/-! ## C9 -/

theorem dictGet_eq_none_of_not_mem (k : String) (d : List (String × PyValue))
    (h : ¬ k ∈ d.map Prod.fst) : dictGet k d = none := by
  induction d with
  | nil => rfl
  | cons e rest ih =>
    simp only [List.map_cons, List.mem_cons] at h
    push_neg at h
    simp only [dictGet]
    rw [if_neg (fun he => h.1 he.symm)]
    exact ih h.2

theorem buildEntries_keys (req : ResumeSessionRequest) :
    ∀ k ∈ (buildEntries req).map Prod.fst,
      k = "action" ∨ k = "question" ∨ k = "selected_prerequisites" := by
  intro k hk
  rcases req with ⟨act, q, sp⟩
  rcases q with _ | qv <;> rcases sp with _ | spv <;>
    simp only [buildEntries] at hk <;>
    [skip; skip; skip; skip] <;>
    first
      | (split_ifs at hk <;> simp_all <;> tauto)
      | simp_all

/-- C9: the HTTP resume endpoint builds payloads whose keys are among
action, question and selected_prerequisites (action always present) and
never `known_prerequisites`; consequently a resume through the endpoint
always takes human_selection's defensive-default branch: no known
prerequisites, and all of `state.prerequisites` left unknown, whatever
the user selected. -/
theorem api_resume_payload_defaults (req : ResumeSessionRequest) (s : AgentState) :
    "action" ∈ payloadKeys (buildUserResponse req) ∧
    (∀ k ∈ payloadKeys (buildUserResponse req),
      k = "action" ∨ k = "question" ∨ k = "selected_prerequisites") ∧
    ¬ "known_prerequisites" ∈ payloadKeys (buildUserResponse req) ∧
    (human_selection_node s (buildUserResponse req)).known_prerequisites = [] ∧
    (human_selection_node s (buildUserResponse req)).unknown_prerequisites =
      s.prerequisites := by
  have hno : dictGet "known_prerequisites" (buildEntries req) = none := by
    apply dictGet_eq_none_of_not_mem
    intro hmem
    rcases buildEntries_keys req _ hmem with h | h | h <;> exact absurd h (by decide)
  refine ⟨?_, ?_, ?_, ?_, ?_⟩
  · simp [payloadKeys, buildUserResponse, buildEntries]
  · exact fun k hkk => buildEntries_keys req k hkk
  · intro hmem
    rcases buildEntries_keys req _ hmem with h | h | h <;> exact absurd h (by decide)
  · rw [human_selection_node_known]
    simp [buildUserResponse, selectionLists, hno]
  · rw [human_selection_node_unknown]
    simp [buildUserResponse, selectionLists, hno]

/-- C9 witness: even a prerequisite-selection resume through the
endpoint leaves everything unknown on a concrete state. -/
theorem api_resume_payload_defaults_spot :
    (human_selection_node sampleState
        (buildUserResponse selectionRequest)).known_prerequisites = [] ∧
    (human_selection_node sampleState
        (buildUserResponse selectionRequest)).unknown_prerequisites =
      sampleState.prerequisites :=
  ⟨(api_resume_payload_defaults selectionRequest sampleState).2.2.2.1,
    (api_resume_payload_defaults selectionRequest sampleState).2.2.2.2⟩

/-! ## C10 -/

/-- C10: invoked with an empty current topic, the research step
returns exactly the single-field update
`{current_research: "No topic to research"}` — the state is otherwise
unchanged (retry counter, messages, roadmap, cursor, lesson included) —
and its result does not depend on the search collaborator at all. -/
theorem research_empty_topic_frame (s : AgentState)
    (results results2 : List SearchResult) (h : s.current_topic = "") :
    research_agent_node s results = { s with current_research := "No topic to research" } ∧
    research_agent_node s results = research_agent_node s results2 ∧
    (research_agent_node s results).research_retry_count = s.research_retry_count ∧
    (research_agent_node s results).messages = s.messages ∧
    (research_agent_node s results).learning_roadmap = s.learning_roadmap ∧
    (research_agent_node s results).current_topic_index = s.current_topic_index ∧
    (research_agent_node s results).current_lesson = s.current_lesson := by
  have h1 : research_agent_node s results =
      { s with current_research := "No topic to research" } := by
    simp [research_agent_node, h]
  have h2 : research_agent_node s results2 =
      { s with current_research := "No topic to research" } := by
    simp [research_agent_node, h]
  exact ⟨h1, h1.trans h2.symm, by rw [h1], by rw [h1], by rw [h1], by rw [h1], by rw [h1]⟩

/-- C10 witness: with an empty topic the research step performs the
single-field update on a concrete state, for any search results. -/
theorem research_empty_topic_spot :
    research_agent_node emptyTopicState [] =
      { emptyTopicState with current_research := "No topic to research" } :=
  (research_empty_topic_frame emptyTopicState []
    [{ title := "t", url := "u", content := "c" }] rfl).1

end AgenticTutor
